import Mathlib

/-!
Verification of the serverless CRUD application (`aws_cdk` repository).

The application exposes three AWS Lambda entry points over a DynamoDB table:
create-or-update (`Lambda/CreateUpdate/lambda_functions.py`), delete
(`Lambda/Delete/lambda_functions.py`) and list (`Lambda/List/lambda_functions.py`),
sharing the layer `Layers/python/common.py` (`DynamoDBBase`, `APIResponse`).

Embedding choices:
* The DynamoDB table is a `List Item`; `get_item`, `put_item`,
  `table_delete_item`, `scan` and the `gsi-name` query (`is_name_exists`)
  are modelled over it.  Storage-infrastructure failures are not modelled:
  storage operations are total, so `RuntimeError` arises only where the code
  converts another exception into one.
* A parsed JSON request body is a `Body`: an optional `id` field plus a
  `Payload` holding the optional `name` and the list of other field keys
  (their values are never read by the code; they only affect dict
  truthiness).  Python falsiness of a string field (`if not name:`) is
  `isBlank`: absent or the empty string.
* Python exceptions are `LambdaError` (`valueError` / `runtimeError`);
  each `lambda_handler`'s except-chain is `handleError`.
* `uuid.uuid4()` and `datetime.utcnow().isoformat()` are nondeterministic
  inputs, passed as explicit `String` parameters.
* `APIResponse` bodies are kept structured (the value passed to
  `json.dumps`), not serialized to a JSON string.
* Handler functions return the response together with the resulting table
  and the number of `put_item` writes executed, to reason about persistence.
-/

/-- A stored DynamoDB item.  Attributes written by the code: `id` (partition
key), `name`, `created_at`; `updated_at` is set only by the update path, so
it is optional (absent = the attribute is not in the stored map). -/
structure Item where
  id : String
  name : String
  created_at : String
  updated_at : Option String
deriving Repr, DecidableEq

/-- The DynamoDB table state. -/
abbrev Table := List Item

/-- Python falsiness of an optional string field: absent (`None`) or `""`. -/
def isBlank : Option String → Bool
  | none => true
  | some s => s == ""

/-- boto3 `table.get_item(Key=\x7b'id': item_id\x7d)`: the stored item with
that partition key, if any. -/
def get_item (table : Table) (item_id : String) : Option Item :=
  table.find? (fun x => x.id == item_id)

/-- boto3 `table.put_item(Item=item)`: replace the item with the same key if
present, otherwise insert. -/
def put_item (table : Table) (item : Item) : Table :=
  if table.any (fun x => x.id == item.id) then
    table.map (fun x => if x.id == item.id then item else x)
  else
    table ++ [item]

/-- boto3 `table.delete_item(Key=\x7b'id': item_id\x7d)`: remove the item
with that key. -/
def table_delete_item (table : Table) (item_id : String) : Table :=
  table.filter (fun x => !(x.id == item_id))

/-- boto3 `table.scan()`: all stored items. -/
def scan (table : Table) : List Item :=
  table

/-- A parsed request body with the `id` key already popped (what
`create_item` / `update_item` receive as `data`): the optional `name` field
and the keys of any other fields.  Other fields' values are never read. -/
structure Payload where
  name : Option String
  extra : List String
deriving Repr, DecidableEq

/-- Python truthiness `if not data:` on the payload dict: no fields at all. -/
def Payload.isEmpty (p : Payload) : Bool :=
  p.name.isNone && p.extra.isEmpty

/-- A parsed request body as seen by the create-or-update `lambda_handler`:
`id` is present iff the dict had an `id` key. -/
structure Body where
  id : Option String
  data : Payload
deriving Repr, DecidableEq

/-- Python exceptions distinguished by the handlers' except-chains:
`ValueError` (client error) and `RuntimeError` (server error). -/
inductive LambdaError where
  | valueError (msg : String)
  | runtimeError (msg : String)
deriving Repr, DecidableEq

/-- The structured value serialized into a response body. -/
inductive RespBody where
  | errorBody (msg : String)
  | itemBody (message : String) (item : Item)
  | messageBody (message : String)
  | listBody (items : List Item) (count : Nat)
deriving Repr, DecidableEq

/-- A response envelope (`statusCode`, CORS headers fixed, `body`). -/
structure APIResponse where
  statusCode : Nat
  body : RespBody
deriving Repr, DecidableEq

/-- `APIResponse.success(data, status_code)` from `common.py`. -/
def APIResponse.success (data : RespBody) (status_code : Nat) : APIResponse :=
  { statusCode := status_code, body := data }

/-- `APIResponse.error(message, status_code)` from `common.py`. -/
def APIResponse.error (message : String) (status_code : Nat) : APIResponse :=
  { statusCode := status_code, body := .errorBody message }

/-- The identical except-chains at the bottom of every `lambda_handler`:
`ValueError` becomes a 400 envelope with the bare message, `RuntimeError`
(and any other exception) becomes a 500 envelope with the wrapped message. -/
def handleError (e : LambdaError) : APIResponse :=
  match e with
  | .valueError msg => APIResponse.error msg 400
  | .runtimeError msg => APIResponse.error ("Internal server error: " ++ msg) 500

/-- `DynamoDBBase.__init__`: reads the `TABLE_NAME` environment setting and
raises `ValueError` when it is absent or empty.  Runs when a handler object
is constructed, which happens inside each `lambda_handler`'s try block. -/
def dynamoDBBase_init (tableName : Option String) : Except LambdaError Unit :=
  if isBlank tableName then
    .error (.valueError "TABLE_NAME environment variable is required")
  else
    .ok ()

/-- `CreateHandler.is_name_exists`: query the `gsi-name` secondary index for
items whose `name` equals the given name; true iff the result is nonempty. -/
def is_name_exists (table : Table) (name : String) : Bool :=
  decide ((table.filter (fun x => x.name == name)).length > 0)

/-- `CreateHandler.create_item(data)`: validate, check name uniqueness,
build the item with a fresh `id` and `created_at`, and put it.  Returns the
result (or raised error), the resulting table, and the number of executed
`put_item` writes. -/
def create_item (table : Table) (data : Payload) (uuid ts : String) :
    Except LambdaError (String × Item) × Table × Nat :=
  if data.isEmpty then
    (.error (.valueError "Item data is required"), table, 0)
  else if isBlank data.name then
    (.error (.valueError "Name is required"), table, 0)
  else
    let name := data.name.getD ""
    if is_name_exists table name then
      (.error (.valueError "Item with the same name already exists"), table, 0)
    else
      let item : Item := { id := uuid, name := name, created_at := ts, updated_at := none }
      (.ok ("Item created successfully", item), put_item table item, 1)

/-- `CreateHandler.update_item(item_id, data)`: validate the payload is
nonempty, fetch the target (NotFound if absent), validate `name`, check
name uniqueness (against the whole table, the target included), overwrite
`name`, set `updated_at`, put, and re-fetch.  Returns the result (or raised
error), the resulting table, and the number of executed `put_item` writes.
The re-fetch after the put cannot miss, but the source would convert a miss
(KeyError) into a `RuntimeError`, so that branch is embedded too. -/
def update_item (table : Table) (item_id : String) (data : Payload) (ts : String) :
    Except LambdaError (String × Item) × Table × Nat :=
  if data.isEmpty then
    (.error (.valueError "Item data is required"), table, 0)
  else
    match get_item table item_id with
    | none =>
        (.error (.valueError ("Item with id " ++ item_id ++ " not found")), table, 0)
    | some it =>
        if isBlank data.name then
          (.error (.valueError "Name is required"), table, 0)
        else
          let name := data.name.getD ""
          if is_name_exists table name then
            (.error (.valueError "Item with the same name already exists"), table, 0)
          else
            let item := { it with name := name, updated_at := some ts }
            let table2 := put_item table item
            match get_item table2 item_id with
            | some upd => (.ok ("Item updated successfully", upd), table2, 1)
            | none =>
                (.error (.runtimeError "Failed to create item: 'Item'"), table2, 1)

/-- `DeleteHandler.delete_item(item_id)`: validate the id, then inside a
try block fetch the target and delete it.  The not-found `ValueError` is
raised inside that try block, so the function's own `except Exception`
catches it and re-raises it wrapped as a `RuntimeError`. -/
def delete_item (table : Table) (item_id : String) :
    Except LambdaError String × Table :=
  if item_id == "" then
    (.error (.valueError "Item ID is required"), table)
  else
    match get_item table item_id with
    | none =>
        (.error (.runtimeError ("Failed to delete item: Item with id " ++ item_id ++ " not found")),
         table)
    | some _ =>
        (.ok "Item deleted successfully", table_delete_item table item_id)

/-- `Handler.get_all_items` from the List lambda: scan the table and return
the items together with their count. -/
def get_all_items (table : Table) : List Item × Nat :=
  let items := scan table
  (items, items.length)

/-- The create-or-update `lambda_handler`: construct the handler (TABLE_NAME
check) inside the try block, pop `id` from the body to choose update vs
create, and map the outcome through `APIResponse` (201 on success) or the
except-chain. -/
def createUpdate_lambda_handler (tableName : Option String) (body : Body)
    (uuid ts : String) (table : Table) : APIResponse × Table × Nat :=
  match dynamoDBBase_init tableName with
  | .error e => (handleError e, table, 0)
  | .ok _ =>
      let out :=
        match body.id with
        | some item_id => update_item table item_id body.data ts
        | none => create_item table body.data uuid ts
      match out with
      | (.ok (msg, item), table2, puts) =>
          (APIResponse.success (.itemBody msg item) 201, table2, puts)
      | (.error e, table2, puts) => (handleError e, table2, puts)

/-- The delete `lambda_handler`: construct the handler inside the try block,
read `id` from the path parameters (`ValueError` if missing or empty), call
`delete_item`, and map the outcome through `APIResponse` (200 on success) or
the except-chain. -/
def delete_lambda_handler (tableName : Option String) (pathId : Option String)
    (table : Table) : APIResponse × Table :=
  match dynamoDBBase_init tableName with
  | .error e => (handleError e, table)
  | .ok _ =>
      if isBlank pathId then
        (handleError (.valueError "Item ID is required in path parameters"), table)
      else
        match delete_item table (pathId.getD "") with
        | (.ok msg, table2) => (APIResponse.success (.messageBody msg) 200, table2)
        | (.error e, table2) => (handleError e, table2)

/-- The list `lambda_handler`: construct the handler inside the try block,
call `get_all_items`, and return a 200 envelope with items and count. -/
def list_lambda_handler (tableName : Option String) (table : Table) : APIResponse :=
  match dynamoDBBase_init tableName with
  | .error e => handleError e
  | .ok _ =>
      let r := get_all_items table
      APIResponse.success (.listBody r.1 r.2) 200

/-! ## Helper lemmas about the storage model -/

/-- If a predicate holds of `item` and fails on all of `l`, then `find?`
over `l ++ [item]` returns `item`. -/
theorem find?_append_singleton (p : Item → Bool) (item : Item) (hp : p item = true)
    (l : List Item) (hl : l.any p = false) : (l ++ [item]).find? p = some item := by
  induction l with
  | nil => simp [List.find?, hp]
  | cons a as ih =>
      simp only [List.any_cons, Bool.or_eq_false_iff] at hl
      simp only [List.cons_append, List.find?_cons, hl.1]
      exact ih hl.2

/-- Replacing every key-matching element of `l` by `item` makes `find?` by
that key return `item`, provided some element matched. -/
theorem find?_map_replace (item : Item) (l : List Item)
    (hl : l.any (fun x => x.id == item.id) = true) :
    (l.map (fun x => if x.id == item.id then item else x)).find?
      (fun x => x.id == item.id) = some item := by
  induction l with
  | nil => simp at hl
  | cons a as ih =>
      by_cases ha : a.id = item.id
      · rw [List.map_cons]
        have hif : (if a.id == item.id then item else a) = item := by simp [ha]
        rw [hif, List.find?_cons_of_pos]
        simp
      · have ha2 : (a.id == item.id) = false := by simp [ha]
        simp only [List.any_cons, ha2, Bool.false_or] at hl
        rw [List.map_cons]
        have hif : (if a.id == item.id then item else a) = a := by simp [ha2]
        rw [hif, List.find?_cons_of_neg _ (by simp [ha2])]
        exact ih hl

/-- After `put_item table item`, looking the key of `item` up returns
`item` itself. -/
theorem get_item_put_item_self (table : Table) (item : Item) :
    get_item (put_item table item) item.id = some item := by
  unfold get_item put_item
  by_cases h : table.any (fun x => x.id == item.id) = true
  · simp only [h, if_true]
    exact find?_map_replace item table h
  · simp only [h, if_false]
    exact find?_append_singleton _ item (by simp) table (by simpa using h)

/-- The item just written by `put_item` is a member of the resulting table. -/
theorem mem_put_item_self (table : Table) (item : Item) :
    item ∈ put_item table item := by
  unfold put_item
  by_cases h : table.any (fun x => x.id == item.id) = true
  · simp only [h, if_true]
    obtain ⟨a, ha, hpa⟩ := List.any_eq_true.mp h
    exact List.mem_map.mpr ⟨a, ha, by simp [hpa]⟩
  · simp [h]

/-- A stored item witnesses the `gsi-name` existence check for its name. -/
theorem is_name_exists_of_mem {table : Table} {x : Item} (hx : x ∈ table)
    {name : String} (hn : x.name = name) : is_name_exists table name = true := by
  unfold is_name_exists
  simp only [decide_eq_true_eq]
  have hmem : x ∈ table.filter (fun y => y.name == name) :=
    List.mem_filter.mpr ⟨hx, by simp [hn]⟩
  exact List.length_pos.mpr (List.ne_nil_of_mem hmem)

/-- The `find?` underlying `get_item` forces the found item to carry the
looked-up key. -/
theorem get_item_id_eq {table : Table} {item_id : String} {it : Item}
    (hget : get_item table item_id = some it) : it.id = item_id := by
  have := List.find?_some hget
  exact eq_of_beq (by simpa using this)

/-- The re-fetch performed by `update_item` after its put always finds the
freshly written item. -/
theorem update_item_refetch (table : Table) (item_id : String) (it : Item)
    (hget : get_item table item_id = some it) (name ts : String) :
    get_item (put_item table { it with name := name, updated_at := some ts }) item_id =
      some { it with name := name, updated_at := some ts } := by
  have hid : it.id = item_id := get_item_id_eq hget
  have h := get_item_put_item_self table { it with name := name, updated_at := some ts }
  simpa [hid] using h

/-! ## Claims -/

/-- Claim C1: the spec says delete of an id absent from storage yields
statusCode 400 (NotFound as a client error); the code instead raises the
not-found `ValueError` inside `delete_item`'s try block, whose
`except Exception` wraps it into a `RuntimeError`, so the entry point
returns statusCode 500.  This theorem evaluates the delete entry point at
the failing input: empty storage, path id "x", TABLE_NAME set. -/
theorem C1_delete_absent_id_returns_500 :
    delete_lambda_handler (some "Items") (some "x") [] =
      (APIResponse.error
        "Internal server error: Failed to delete item: Item with id x not found" 500,
       []) := by
  rfl

/-- Claim C2, counterexample: with an entirely empty payload and an id
absent from storage, `update_item` fails with the payload-validation error
"Item data is required", not with NotFound — the emptiness check precedes
the existence check, refuting the claim for the empty payload. -/
theorem C2_counterexample :
    (update_item [] "x" { name := none, extra := [] } "t0").1 =
      .error (.valueError "Item data is required") ∧
    (update_item [] "x" { name := none, extra := [] } "t0").1 ≠
      .error (.valueError "Item with id x not found") := by
  refine ⟨rfl, ?_⟩
  rw [show (update_item [] "x" { name := none, extra := [] } "t0").1 =
      .error (.valueError "Item data is required") from rfl]
  simp only [ne_eq, Except.error.injEq, LambdaError.valueError.injEq]
  decide

/-- Claim C2, amended: for every NON-empty payload and every id not present
in storage, `update_item` fails with NotFound — the NotFound error takes
precedence over name-validation and duplicate-name errors.  (An entirely
empty payload instead fails first with "Item data is required".) -/
theorem C2_update_absent_id_not_found (table : Table) (item_id : String)
    (data : Payload) (ts : String)
    (hne : data.isEmpty = false) (habs : get_item table item_id = none) :
    update_item table item_id data ts =
      (.error (.valueError ("Item with id " ++ item_id ++ " not found")), table, 0) := by
  simp [update_item, hne, habs]

/-- Witness for C2: a concrete non-empty payload and an id absent from the
empty table. -/
theorem C2_update_absent_id_not_found_witness :
    update_item [] "x" { name := some "Widget", extra := [] } "t0" =
      (.error (.valueError ("Item with id " ++ "x" ++ " not found")), [], 0) :=
  C2_update_absent_id_not_found [] "x" { name := some "Widget", extra := [] } "t0"
    (by decide) rfl

/-- Claim C3: the update path's uniqueness check excludes no item, the item
being updated included: for every stored item with a non-empty name, calling
`update_item` with that item's id and its own current name raises the
duplicate-name Conflict error, and no write happens. -/
theorem C3_self_rename_conflict (table : Table) (it : Item) (ts : String)
    (hget : get_item table it.id = some it) (hname : it.name ≠ "") :
    update_item table it.id { name := some it.name, extra := [] } ts =
      (.error (.valueError "Item with the same name already exists"), table, 0) := by
  have hmem : it ∈ table := List.mem_of_find?_eq_some hget
  have hex : is_name_exists table it.name = true := is_name_exists_of_mem hmem rfl
  have hblank : isBlank (some it.name) = false := by simp [isBlank, hname]
  simp [update_item, Payload.isEmpty, hget, hblank, hex]

/-- Witness for C3: a table holding one item named "Widget"; renaming it to
"Widget" raises Conflict. -/
theorem C3_self_rename_conflict_witness :
    update_item [({ id := "a", name := "Widget", created_at := "t0", updated_at := none } : Item)]
        "a" { name := some "Widget", extra := [] } "t1" =
      (.error (.valueError "Item with the same name already exists"),
       [({ id := "a", name := "Widget", created_at := "t0", updated_at := none } : Item)], 0) :=
  C3_self_rename_conflict
    [({ id := "a", name := "Widget", created_at := "t0", updated_at := none } : Item)]
    { id := "a", name := "Widget", created_at := "t0", updated_at := none } "t1"
    rfl (by decide)

/-- Write-count discipline of `create_item`: one put on success, none (and
an unchanged table) on any failure path. -/
theorem create_item_writes (table : Table) (data : Payload) (uuid ts : String) :
    ((create_item table data uuid ts).1.isOk = true →
      (create_item table data uuid ts).2.2 = 1) ∧
    ((create_item table data uuid ts).1.isOk = false →
      (create_item table data uuid ts).2.2 = 0 ∧
      (create_item table data uuid ts).2.1 = table) := by
  by_cases h1 : data.isEmpty = true
  · simp [create_item, h1, Except.isOk, Except.toBool]
  · by_cases h2 : isBlank data.name = true
    · simp [create_item, h1, h2, Except.isOk, Except.toBool]
    · by_cases h3 : is_name_exists table (data.name.getD "") = true
      · simp [create_item, h1, h2, h3, Except.isOk, Except.toBool]
      · simp [create_item, h1, h2, h3, Except.isOk, Except.toBool]

/-- Write-count discipline of `update_item`: one put on success, none (and
an unchanged table) on any failure path.  Uses the fact that the re-fetch
after the put cannot miss. -/
theorem update_item_writes (table : Table) (item_id : String) (data : Payload) (ts : String) :
    ((update_item table item_id data ts).1.isOk = true →
      (update_item table item_id data ts).2.2 = 1) ∧
    ((update_item table item_id data ts).1.isOk = false →
      (update_item table item_id data ts).2.2 = 0 ∧
      (update_item table item_id data ts).2.1 = table) := by
  by_cases h1 : data.isEmpty = true
  · simp [update_item, h1, Except.isOk, Except.toBool]
  · cases hg : get_item table item_id with
    | none => simp [update_item, h1, hg, Except.isOk, Except.toBool]
    | some it =>
        by_cases h2 : isBlank data.name = true
        · simp [update_item, h1, hg, h2, Except.isOk, Except.toBool]
        · by_cases h3 : is_name_exists table (data.name.getD "") = true
          · simp [update_item, h1, hg, h2, h3, Except.isOk, Except.toBool]
          · have hre := update_item_refetch table item_id it hg (data.name.getD "") ts
            simp [update_item, h1, hg, h2, h3, hre, Except.isOk, Except.toBool]

/-- Claim C4: for every invocation of `create_item` or `update_item`, on
success exactly one persisted put is executed, and on every failure path
zero puts are executed and the storage state is unchanged. -/
theorem C4_single_put_on_success (table : Table) (data : Payload) (item_id uuid ts : String) :
    (((create_item table data uuid ts).1.isOk = true →
        (create_item table data uuid ts).2.2 = 1) ∧
      ((create_item table data uuid ts).1.isOk = false →
        (create_item table data uuid ts).2.2 = 0 ∧
        (create_item table data uuid ts).2.1 = table)) ∧
    (((update_item table item_id data ts).1.isOk = true →
        (update_item table item_id data ts).2.2 = 1) ∧
      ((update_item table item_id data ts).1.isOk = false →
        (update_item table item_id data ts).2.2 = 0 ∧
        (update_item table item_id data ts).2.1 = table)) :=
  ⟨create_item_writes table data uuid ts, update_item_writes table item_id data ts⟩

/-- Witness for C4: a concrete successful create executes one put; a
concrete failing update (absent id) executes none and leaves the table as
it was. -/
theorem C4_single_put_on_success_witness :
    (create_item [] { name := some "A", extra := [] } "u" "t").2.2 = 1 ∧
    (update_item [] "x" { name := some "A", extra := [] } "t").2.2 = 0 ∧
    (update_item [] "x" { name := some "A", extra := [] } "t").2.1 = ([] : Table) := by
  have h := C4_single_put_on_success [] { name := some "A", extra := [] } "x" "u" "t"
  exact ⟨h.1.1 rfl, (h.2.2 rfl).1, (h.2.2 rfl).2⟩

/-- Claim C5: with a fresh non-empty name, the first create through the
entry point succeeds with statusCode 201; a second create with the
identical name fails with Conflict and the entry point returns a 400
envelope with body error "Item with the same name already exists". -/
theorem C5_duplicate_name_create (tableName name uuid1 ts1 uuid2 ts2 : String)
    (table : Table) (htn : tableName ≠ "") (hname : name ≠ "")
    (hfresh : is_name_exists table name = false) :
    (createUpdate_lambda_handler (some tableName)
        { id := none, data := { name := some name, extra := [] } } uuid1 ts1 table).1.statusCode = 201 ∧
    (createUpdate_lambda_handler (some tableName)
        { id := none, data := { name := some name, extra := [] } } uuid2 ts2
        (createUpdate_lambda_handler (some tableName)
            { id := none, data := { name := some name, extra := [] } } uuid1 ts1 table).2.1).1 =
      APIResponse.error "Item with the same name already exists" 400 := by
  have hinit : dynamoDBBase_init (some tableName) = .ok () := by
    simp [dynamoDBBase_init, isBlank, htn]
  have hblank : isBlank (some name) = false := by simp [isBlank, hname]
  have hc1 : create_item table { name := some name, extra := [] } uuid1 ts1 =
      (.ok ("Item created successfully",
        { id := uuid1, name := name, created_at := ts1, updated_at := none }),
       put_item table { id := uuid1, name := name, created_at := ts1, updated_at := none }, 1) := by
    simp [create_item, Payload.isEmpty, hblank, hfresh]
  have h1 : createUpdate_lambda_handler (some tableName)
      { id := none, data := { name := some name, extra := [] } } uuid1 ts1 table =
      (APIResponse.success (.itemBody "Item created successfully"
        { id := uuid1, name := name, created_at := ts1, updated_at := none }) 201,
       put_item table { id := uuid1, name := name, created_at := ts1, updated_at := none }, 1) := by
    simp [createUpdate_lambda_handler, hinit, hc1]
  have hmem := mem_put_item_self table
      { id := uuid1, name := name, created_at := ts1, updated_at := none }
  have hex : is_name_exists
      (put_item table { id := uuid1, name := name, created_at := ts1, updated_at := none })
      name = true := is_name_exists_of_mem hmem rfl
  have hc2 : create_item
      (put_item table { id := uuid1, name := name, created_at := ts1, updated_at := none })
      { name := some name, extra := [] } uuid2 ts2 =
      (.error (.valueError "Item with the same name already exists"),
       put_item table { id := uuid1, name := name, created_at := ts1, updated_at := none }, 0) := by
    simp [create_item, Payload.isEmpty, hblank, hex]
  refine ⟨by rw [h1]; rfl, ?_⟩
  rw [h1]
  simp [createUpdate_lambda_handler, hinit, hc2, handleError]

/-- Witness for C5: fresh name "Widget" on an empty table. -/
theorem C5_duplicate_name_create_witness :
    (createUpdate_lambda_handler (some "T")
        { id := none, data := { name := some "Widget", extra := [] } } "u1" "t1" []).1.statusCode = 201 ∧
    (createUpdate_lambda_handler (some "T")
        { id := none, data := { name := some "Widget", extra := [] } } "u2" "t2"
        (createUpdate_lambda_handler (some "T")
            { id := none, data := { name := some "Widget", extra := [] } } "u1" "t1" []).2.1).1 =
      APIResponse.error "Item with the same name already exists" 400 :=
  C5_duplicate_name_create "T" "Widget" "u1" "t1" "u2" "t2" [] (by decide) (by decide) rfl

/-- A blank or absent name makes `create_item` raise some `ValueError`
without touching storage. -/
theorem create_item_blank_name (table : Table) (data : Payload) (uuid ts : String)
    (hb : isBlank data.name = true) :
    ∃ msg, create_item table data uuid ts = (.error (.valueError msg), table, 0) := by
  by_cases h1 : data.isEmpty = true
  · exact ⟨"Item data is required", by simp [create_item, h1]⟩
  · exact ⟨"Name is required", by simp [create_item, h1, hb]⟩

/-- A blank or absent name makes `update_item` raise some `ValueError`
without touching storage. -/
theorem update_item_blank_name (table : Table) (item_id : String) (data : Payload)
    (ts : String) (hb : isBlank data.name = true) :
    ∃ msg, update_item table item_id data ts = (.error (.valueError msg), table, 0) := by
  by_cases h1 : data.isEmpty = true
  · exact ⟨"Item data is required", by simp [update_item, h1]⟩
  · cases hg : get_item table item_id with
    | none =>
        exact ⟨"Item with id " ++ item_id ++ " not found", by simp [update_item, h1, hg]⟩
    | some it => exact ⟨"Name is required", by simp [update_item, h1, hg, hb]⟩

/-- Claim C6: whenever the payload's name field is absent or empty, both
`create_item` and `update_item` raise a `ValueError` (client validation
error), and the entry point returns statusCode 400, regardless of the other
fields of the payload, the target id and the storage state. -/
theorem C6_blank_name_validation (tableName item_id uuid ts : String) (data : Payload)
    (table : Table) (htn : tableName ≠ "") (hblank : isBlank data.name = true) :
    (∃ msg, (create_item table data uuid ts).1 = .error (.valueError msg)) ∧
    (∃ msg, (update_item table item_id data ts).1 = .error (.valueError msg)) ∧
    (createUpdate_lambda_handler (some tableName) { id := none, data := data }
        uuid ts table).1.statusCode = 400 ∧
    (createUpdate_lambda_handler (some tableName) { id := some item_id, data := data }
        uuid ts table).1.statusCode = 400 := by
  have hinit : dynamoDBBase_init (some tableName) = .ok () := by
    simp [dynamoDBBase_init, isBlank, htn]
  obtain ⟨m1, hm1⟩ := create_item_blank_name table data uuid ts hblank
  obtain ⟨m2, hm2⟩ := update_item_blank_name table item_id data ts hblank
  refine ⟨⟨m1, by rw [hm1]⟩, ⟨m2, by rw [hm2]⟩, ?_, ?_⟩
  · simp [createUpdate_lambda_handler, hinit, hm1, handleError, APIResponse.error]
  · simp [createUpdate_lambda_handler, hinit, hm2, handleError, APIResponse.error]

/-- Witness for C6: payload with `name` present but empty, against the
empty table. -/
theorem C6_blank_name_validation_witness :
    (∃ msg, (create_item [] { name := some "", extra := [] } "u" "t").1 =
      .error (.valueError msg)) ∧
    (∃ msg, (update_item [] "x" { name := some "", extra := [] } "t").1 =
      .error (.valueError msg)) ∧
    (createUpdate_lambda_handler (some "T")
        { id := none, data := { name := some "", extra := [] } } "u" "t" []).1.statusCode = 400 ∧
    (createUpdate_lambda_handler (some "T")
        { id := some "x", data := { name := some "", extra := [] } } "u" "t" []).1.statusCode = 400 :=
  C6_blank_name_validation "T" "x" "u" "t" { name := some "", extra := [] } []
    (by decide) (by decide)

/-- Claim C7: a successful create through the entry point returns
statusCode 201 with the success message and an item carrying the generated
id and the created_at timestamp and no updated_at field; the item is
persisted with one put. -/
theorem C7_create_success_envelope (tableName name uuid ts : String) (table : Table)
    (others : List String) (htn : tableName ≠ "") (hname : name ≠ "")
    (hfresh : is_name_exists table name = false) :
    createUpdate_lambda_handler (some tableName)
        { id := none, data := { name := some name, extra := others } } uuid ts table =
      (APIResponse.success
         (.itemBody "Item created successfully"
           { id := uuid, name := name, created_at := ts, updated_at := none }) 201,
       put_item table { id := uuid, name := name, created_at := ts, updated_at := none }, 1) := by
  have hinit : dynamoDBBase_init (some tableName) = .ok () := by
    simp [dynamoDBBase_init, isBlank, htn]
  have hblank : isBlank (some name) = false := by simp [isBlank, hname]
  simp [createUpdate_lambda_handler, hinit, create_item, Payload.isEmpty, hblank, hfresh]

/-- Witness for C7: create "Widget" on the empty table. -/
theorem C7_create_success_envelope_witness :
    createUpdate_lambda_handler (some "T")
        { id := none, data := { name := some "Widget", extra := [] } } "u1" "t1" [] =
      (APIResponse.success
         (.itemBody "Item created successfully"
           { id := "u1", name := "Widget", created_at := "t1", updated_at := none }) 201,
       put_item [] { id := "u1", name := "Widget", created_at := "t1", updated_at := none }, 1) :=
  C7_create_success_envelope "T" "Widget" "u1" "t1" [] [] (by decide) (by decide) rfl

/-- Claim C8, counterexample: with the table-name setting absent, a create
request reaching the entry point yields a per-request error envelope with
statusCode 400 and the configuration error message — the handler object
(whose constructor performs the check) is built inside the request-time try
block, so the absence is not a process-start fatal error. -/
theorem C8_counterexample :
    createUpdate_lambda_handler none
        { id := none, data := { name := some "Widget", extra := [] } } "u" "t" [] =
      (APIResponse.error "TABLE_NAME environment variable is required" 400, [], 0) := by
  rfl

/-- Claim C8, amended: the table-name check runs at handler construction
inside each entry point's request-time try block, so every request served
with the setting absent produces a per-request 400 error envelope with the
configuration message, and storage is untouched — for all three entry
points. -/
theorem C8_missing_table_name_request_time (body : Body) (uuid ts : String)
    (pathId : Option String) (table : Table) :
    createUpdate_lambda_handler none body uuid ts table =
      (APIResponse.error "TABLE_NAME environment variable is required" 400, table, 0) ∧
    delete_lambda_handler none pathId table =
      (APIResponse.error "TABLE_NAME environment variable is required" 400, table) ∧
    list_lambda_handler none table =
      APIResponse.error "TABLE_NAME environment variable is required" 400 :=
  ⟨rfl, rfl, rfl⟩

/-- Claim C9: `get_all_items` performs a full scan, returning every stored
item and a count equal to the number of items returned, and on success the
list entry point returns a 200 envelope with those items and that count. -/
theorem C9_list_scan_all (tableName : String) (table : Table) (htn : tableName ≠ "") :
    get_all_items table = (scan table, (scan table).length) ∧
    list_lambda_handler (some tableName) table =
      APIResponse.success (.listBody table table.length) 200 := by
  have hinit : dynamoDBBase_init (some tableName) = .ok () := by
    simp [dynamoDBBase_init, isBlank, htn]
  exact ⟨rfl, by simp [list_lambda_handler, hinit, get_all_items, scan]⟩

/-- Witness for C9: a one-item table. -/
theorem C9_list_scan_all_witness :
    get_all_items [({ id := "a", name := "Widget", created_at := "t0", updated_at := none } : Item)] =
      (scan [({ id := "a", name := "Widget", created_at := "t0", updated_at := none } : Item)],
       (scan [({ id := "a", name := "Widget", created_at := "t0", updated_at := none } : Item)]).length) ∧
    list_lambda_handler (some "T")
        [({ id := "a", name := "Widget", created_at := "t0", updated_at := none } : Item)] =
      APIResponse.success
        (.listBody [({ id := "a", name := "Widget", created_at := "t0", updated_at := none } : Item)]
          ([({ id := "a", name := "Widget", created_at := "t0", updated_at := none } : Item)]).length) 200 :=
  C9_list_scan_all "T"
    [({ id := "a", name := "Widget", created_at := "t0", updated_at := none } : Item)] (by decide)

/-- Claim C10: a successful update through the create-or-update entry point
returns statusCode 201, the same success status as a create — never 200. -/
theorem C10_update_success_status_201 (tableName item_id uuid ts : String) (table : Table)
    (data : Payload) (res : String × Item) (t2 : Table) (n : Nat)
    (htn : tableName ≠ "")
    (hok : update_item table item_id data ts = (.ok res, t2, n)) :
    (createUpdate_lambda_handler (some tableName) { id := some item_id, data := data }
        uuid ts table).1.statusCode = 201 := by
  have hinit : dynamoDBBase_init (some tableName) = .ok () := by
    simp [dynamoDBBase_init, isBlank, htn]
  obtain ⟨msg, item⟩ := res
  simp [createUpdate_lambda_handler, hinit, hok, APIResponse.success]

/-- Witness for C10: updating the stored item "a" from "Old" to "New". -/
theorem C10_update_success_status_201_witness :
    (createUpdate_lambda_handler (some "T")
        { id := some "a", data := { name := some "New", extra := [] } } "u" "t9"
        [({ id := "a", name := "Old", created_at := "t0", updated_at := none } : Item)]).1.statusCode = 201 :=
  C10_update_success_status_201 "T" "a" "u" "t9"
    [({ id := "a", name := "Old", created_at := "t0", updated_at := none } : Item)]
    { name := some "New", extra := [] }
    ("Item updated successfully",
      { id := "a", name := "New", created_at := "t0", updated_at := some "t9" })
    [({ id := "a", name := "New", created_at := "t0", updated_at := some "t9" } : Item)] 1
    (by decide) rfl
